import Mathlib

/-!
Shallow embedding of the subtitle-burn pipeline of `VideoService`
(`src/services/translation.service.ts` / `video.service.ts`): the SRT track
builder (`generateSRTFile`, `formatSRTTime`), the render invoker
(`generateVideoWithSubtitles`, `buildFFmpegCommand`, `generateOutputPath`)
and the color mapping (`hexToBGR`).

JavaScript numbers are modelled as exact rationals (`ℚ`); the claims checked
here only evaluate the time formatter at inputs where IEEE-754 double
arithmetic and exact rational arithmetic give the same field values.
Effectful steps (probe of the ffmpeg binary, SRT write, external process run,
output stat) are driven by an explicit environment record describing the
outcome of each external interaction, and the filesystem-visible actions are
recorded as an ordered event trace.
-/

namespace WhisperApi

/-- JS `Math.floor` on a rational (rounds toward negative infinity). -/
def jsFloor (q : ℚ) : ℤ := ⌊q⌋

/-- Rounding toward zero, as used by the JS `%` operator. -/
def ratTrunc (q : ℚ) : ℤ := if 0 ≤ q then ⌊q⌋ else ⌈q⌉

/-- The JS remainder operator `a % b`: `a - b * trunc(a / b)`.
For `0 ≤ a` and `0 < b` this agrees with the mathematical mod. -/
def jsRem (a b : ℚ) : ℚ := a - b * (ratTrunc (a / b) : ℚ)

/-- JS `String.prototype.padStart` with a single-character pad string. -/
def padStart (s : String) (n : Nat) (c : Char) : String :=
  if n ≤ s.length then s else String.mk (List.replicate (n - s.length) c) ++ s

/-- `VideoService.formatSRTTime`: renders a duration in seconds as
`HH:MM:SS,mmm` using `Math.floor` and the JS `%` operator. -/
def formatSRTTime (seconds : ℚ) : String :=
  let hours := jsFloor (seconds / 3600)
  let minutes := jsFloor (jsRem seconds 3600 / 60)
  let secs := jsFloor (jsRem seconds 60)
  let milliseconds := jsFloor (jsRem seconds 1 * 1000)
  padStart (toString hours) 2 '0' ++ ":" ++ padStart (toString minutes) 2 '0' ++ ":"
    ++ padStart (toString secs) 2 '0' ++ "," ++ padStart (toString milliseconds) 3 '0'

/-- The `TranslatedSegment` interface: a timed subtitle segment. -/
structure TranslatedSegment where
  start : ℚ
  «end» : ℚ
  text : String
  deriving Repr, DecidableEq

/-- The `SubtitleStyle` interface. -/
structure SubtitleStyle where
  fontName : String
  fontSize : Nat
  fontColor : String
  backgroundColor : String
  borderWidth : Nat
  borderColor : String
  marginVertical : Nat
  deriving Repr, DecidableEq

/-- The `VideoResult` interface; `outputPath?` is an optional field. -/
structure VideoResult where
  success : Bool
  message : String
  outputPath : Option String
  deriving Repr, DecidableEq

/-- One SRT cue as built inside `generateSRTFile`:
`[index + 1, start --> end, text, ''].join('\n')` for the 0-based `index`. -/
def srtCue (index : Nat) (segment : TranslatedSegment) : String :=
  String.intercalate "\n" [toString (index + 1),
    formatSRTTime segment.start ++ " --> " ++ formatSRTTime segment.«end»,
    segment.text, ""]

/-- The list of cue strings `segments.map((segment, index) => cue)`. -/
def srtCueList (segments : List TranslatedSegment) : List String :=
  segments.enum.map (fun p => srtCue p.1 p.2)

/-- The SRT file content built by `generateSRTFile`:
`segments.map((segment, index) => cue).join('\n')`. -/
def srtContent (segments : List TranslatedSegment) : String :=
  String.intercalate "\n" (srtCueList segments)

/-- Node `path.join(a, b)` for the well-formed inputs used here. -/
def pathJoin (a b : String) : String :=
  if a = "." then b else if a.data.getLast? = some '/' then a ++ b else a ++ "/" ++ b

/-- `VideoService.generateSRTFile`: returns the pair (temp path, file content).
The path mixes in `Date.now()` and a random token, modelled as the explicit
arguments `now` and `rand`; the content is a function of the segments alone. -/
def generateSRTFile (segments : List TranslatedSegment) (now : Nat) (rand : String) :
    String × String :=
  (pathJoin "temp" ("subtitles_" ++ toString now ++ "_" ++ rand ++ ".srt"),
    srtContent segments)

/-- Split a character list at every `'/'` (the char-level `splitOn "/"`). -/
def splitSlash : List Char → List (List Char)
  | [] => [[]]
  | c :: rest =>
    match splitSlash rest with
    | [] => [[]]
    | h :: t => if c = '/' then [] :: h :: t else (c :: h) :: t

/-- Components of a POSIX path, as produced by `splitOn "/"`. -/
def pathParts (p : String) : List String := (splitSlash p.data).map String.mk

/-- Index of the last dot of a character list, if any. -/
def lastDotIdx (l : List Char) : Option Nat :=
  ((l.enum.filter (fun p => p.2 = '.')).getLast?).map (fun p => p.1)

/-- Node `path.extname` (POSIX): the suffix of the final path component from
its last dot, or `""` when the only dot is leading or there is none. -/
def pathExtname (p : String) : String :=
  let base := ((pathParts p).getLastD "").data
  match lastDotIdx base with
  | some i => if 0 < i then String.mk (base.drop i) else ""
  | none => ""

/-- Node `path.basename(p, ext)` (POSIX): final component, with `ext`
stripped when it is a proper suffix. -/
def pathBasename (p : String) (ext : String) : String :=
  let base := (pathParts p).getLastD ""
  if ext ≠ "" && ext.data.isSuffixOf base.data && base ≠ ext then
    String.mk (base.data.take (base.data.length - ext.data.length))
  else base

/-- Node `path.dirname` (POSIX). -/
def pathDirname (p : String) : String :=
  let parts := pathParts p
  if parts.length ≤ 1 then "." else
    let front := parts.dropLast
    if front = [""] then "/" else String.intercalate "/" front

/-- `VideoService.generateOutputPath`: inserts `_subtitled_<timestamp>_<randomId>`
before the extension (replacing it by `.mp4`). -/
def generateOutputPath (inputPath : String) (timestamp : Nat) (randomId : String) : String :=
  let ext := pathExtname inputPath
  let basename := pathBasename inputPath ext
  let dirname := pathDirname inputPath
  pathJoin dirname (basename ++ "_subtitled_" ++ toString timestamp ++ "_" ++ randomId ++ ".mp4")

/-- The hex-digit test of JS `parseInt(-, 16)`. -/
def isHexDigit (c : Char) : Bool :=
  ('0' ≤ c && c ≤ '9') || ('a' ≤ c && c ≤ 'f') || ('A' ≤ c && c ≤ 'F')

/-- Value of one hex digit (0 for non-digits; only applied to digits). -/
def hexVal (c : Char) : Nat :=
  if '0' ≤ c && c ≤ '9' then c.toNat - 48
  else if 'a' ≤ c && c ≤ 'f' then c.toNat - 87
  else if 'A' ≤ c && c ≤ 'F' then c.toNat - 55
  else 0

/-- JS `parseInt(s, 16)` restricted to the two-character substrings it is
applied to in `hexToBGR`: parses the longest hex-digit prefix, `none` (NaN)
when that prefix is empty. -/
def jsParseIntHex (l : List Char) : Option Nat :=
  let ds := l.takeWhile isHexDigit
  if ds.isEmpty then none
  else some (ds.foldl (fun acc c => 16 * acc + hexVal c) 0)

/-- Lowercase hex digit character, as produced by JS `toString(16)`. -/
def hexDigitChar (n : Nat) : Char :=
  if n < 10 then Char.ofNat (48 + n) else Char.ofNat (87 + n)

/-- Digits of JS `n.toString(16)` for a non-negative integer `n`
(fuel-driven division loop; `natToHex` supplies enough fuel). -/
def natToHexAux (fuel : Nat) (n : Nat) : List Char :=
  match fuel with
  | 0 => []
  | fuel + 1 =>
    if n < 16 then [hexDigitChar n]
    else natToHexAux fuel (n / 16) ++ [hexDigitChar (n % 16)]

/-- JS `n.toString(16)` for a non-negative integer `n`. -/
def natToHex (n : Nat) : String := String.mk (natToHexAux (n + 1) n)

/-- JS `v.toString(16)` where `v` came from `parseInt`: `"NaN"` when the
parse failed. -/
def hexByteRepr (v : Option Nat) : String :=
  match v with
  | none => "NaN"
  | some n => natToHex n

/-- JS `hex.replace('#', '')` with a string pattern: removes the first
occurrence of `'#'` only. -/
def replaceFirstHash : List Char → List Char
  | [] => []
  | c :: rest => if c = '#' then rest else c :: replaceFirstHash rest

/-- `VideoService.hexToBGR`: parses `hex.substr(0,2)/(2,2)/(4,2)` as R, G, B
and renders `&H` ++ BB ++ GG ++ RR ++ `&`, each byte as
`toString(16).padStart(2, '0')`. -/
def hexToBGR (hex : String) : String :=
  let h := replaceFirstHash hex.data
  let r := jsParseIntHex (h.take 2)
  let g := jsParseIntHex ((h.drop 2).take 2)
  let b := jsParseIntHex ((h.drop 4).take 2)
  "&H" ++ padStart (hexByteRepr b) 2 '0' ++ padStart (hexByteRepr g) 2 '0'
    ++ padStart (hexByteRepr r) 2 '0' ++ "&"

/-- `VideoService.buildFFmpegCommand`: wraps the three paths in double
quotes, builds the `subtitles=...:force_style=...` filter and joins the
argument list with spaces.  (`\x27` is the ASCII apostrophe.) -/
def buildFFmpegCommand (inputPath srtPath outputPath : String)
    (style : SubtitleStyle) : String :=
  let escapedInputPath := "\"" ++ inputPath ++ "\""
  let escapedSrtPath := "\"" ++ srtPath ++ "\""
  let escapedOutputPath := "\"" ++ outputPath ++ "\""
  let fontColorBGR := hexToBGR style.fontColor
  let backgroundColorBGR := hexToBGR style.backgroundColor
  let borderColorBGR := hexToBGR style.borderColor
  let subtitleFilter := "subtitles=" ++ escapedSrtPath ++ ":force_style=\x27FontName="
    ++ style.fontName ++ ",FontSize=" ++ toString style.fontSize
    ++ ",PrimaryColour=" ++ fontColorBGR ++ ",BackColour=" ++ backgroundColorBGR
    ++ ",BorderWidth=" ++ toString style.borderWidth
    ++ ",OutlineColour=" ++ borderColorBGR
    ++ ",MarginV=" ++ toString style.marginVertical ++ "\x27"
  String.intercalate " " ["ffmpeg", "-i", escapedInputPath,
    "-vf", "\"" ++ subtitleFilter ++ "\"",
    "-c:a", "copy", "-c:v", "libx264", "-preset", "medium", "-crf", "23", "-y",
    escapedOutputPath]

/-- Outcomes of the external interactions of one `generateVideoWithSubtitles`
call: whether the `ffmpeg -version` probe succeeds, whether writing the SRT
file succeeds, whether the render process exits 0, and what the filesystem
says about the output artifact afterwards.  `now`, `rand`, `rand2` model
`Date.now()` and the two `Math.random()` tokens. -/
structure Env where
  ffmpegAvailable : Bool
  srtWriteOk : Bool
  srtErrMsg : String
  ffmpegRunOk : Bool
  ffmpegErrMsg : String
  outputExists : Bool
  outputSize : Nat
  now : Nat
  rand : String
  rand2 : String
  deriving Repr, DecidableEq

/-- Filesystem-visible actions of one pipeline call, in program order. -/
inductive Event where
  | probe (ok : Bool)
  | srtWrite (path : String)
  | ffmpegRun (cmd : String)
  | statOutput (path : String)
  | unlinkSrt (path : String)
  deriving Repr, DecidableEq

/-- `VideoService.generateVideoWithSubtitles`, driven by an `Env` describing
the outcome of each external step; returns the `VideoResult` together with
the ordered trace of filesystem-visible events.  The branch structure mirrors
the source: probe failure returns from the inner catch; an SRT-write failure
or a rejecting `execAsync` lands in the outer catch (which performs no SRT
cleanup); a missing output file and the success path both unlink the SRT. -/
def generateVideoWithSubtitles (env : Env) (inputVideoPath : String)
    (segments : List TranslatedSegment) (style : SubtitleStyle) :
    VideoResult × List Event :=
  if !env.ffmpegAvailable then
    (⟨false, "FFmpeg não encontrado. Instale o FFmpeg para continuar.", none⟩,
      [.probe false])
  else if !env.srtWriteOk then
    (⟨false, "Erro na geração: " ++ env.srtErrMsg, none⟩, [.probe true])
  else
    let srtPath := (generateSRTFile segments env.now env.rand).1
    let outputPath := generateOutputPath inputVideoPath env.now env.rand2
    let cmd := buildFFmpegCommand inputVideoPath srtPath outputPath style
    if !env.ffmpegRunOk then
      (⟨false, "Erro na geração: " ++ env.ffmpegErrMsg, none⟩,
        [.probe true, .srtWrite srtPath, .ffmpegRun cmd])
    else if !env.outputExists then
      (⟨false, "Arquivo de saída não foi criado", none⟩,
        [.probe true, .srtWrite srtPath, .ffmpegRun cmd, .unlinkSrt srtPath])
    else
      (⟨true, "Vídeo com legendas gerado com sucesso", some outputPath⟩,
        [.probe true, .srtWrite srtPath, .ffmpegRun cmd, .statOutput outputPath,
          .unlinkSrt srtPath])

/-- Whether the SRT temp file exists once the call has returned: it was
written and not subsequently unlinked. -/
def srtLeftBehind (events : List Event) : Bool :=
  events.foldl (fun acc e =>
    match e with
    | .srtWrite _ => true
    | .unlinkSrt _ => false
    | _ => acc) false

/-- A double-quote-aware field splitter for the constructed command line:
outside quotes, runs of spaces separate fields; a double quote toggles
quoting; every other character is literal.  Used to state what a
shell-like reader makes of the command. -/
def shellFieldsGo : List Char → Bool → List Char → List String → List String
  | [], _, cur, acc => acc ++ (if cur.isEmpty then [] else [String.mk cur.reverse])
  | c :: rest, inQ, cur, acc =>
    if c = '"' then shellFieldsGo rest (!inQ) cur acc
    else if !inQ && c = ' ' then
      shellFieldsGo rest inQ [] (acc ++ (if cur.isEmpty then [] else [String.mk cur.reverse]))
    else shellFieldsGo rest inQ (c :: cur) acc

/-- Fields of a command line under double-quote-aware splitting. -/
def shellFields (s : String) : List String :=
  shellFieldsGo s.data false [] []

/-! ## Spec-side definitions

These restate formulas from `spec.md` in the spec's own words, to be compared
with the embedded code. -/

/-- Mathematical mod as written in the spec: `a mod b = a - b * floor(a/b)`. -/
def specMod (a b : ℚ) : ℚ := a - b * (⌊a / b⌋ : ℚ)

/-- Spec §4.1 time formatting: hours = floor(s/3600), minutes =
floor((s mod 3600)/60), whole seconds = floor(s mod 60), milliseconds =
floor((s mod 1) * 1000), zero-padded to 2/2/2/3 digits. -/
def srtTimeSpec (seconds : ℚ) : String :=
  padStart (toString ⌊seconds / 3600⌋) 2 '0' ++ ":"
    ++ padStart (toString ⌊specMod seconds 3600 / 60⌋) 2 '0' ++ ":"
    ++ padStart (toString ⌊specMod seconds 60⌋) 2 '0' ++ ","
    ++ padStart (toString ⌊specMod seconds 1 * 1000⌋) 3 '0'

/-- Spec §4.1 cue shape: 1-based index, time-range line, literal text, and a
blank separator line (the cue's trailing newline plus the join's newline). -/
def srtCueSpec (n : Nat) (segment : TranslatedSegment) : String :=
  toString n ++ "\n" ++ formatSRTTime segment.start ++ " --> "
    ++ formatSRTTime segment.«end» ++ "\n" ++ segment.text ++ "\n"

/-- Spec §8/§4.2 color encoding: a byte as exactly two lowercase hex digits. -/
def toHex2 (n : Nat) : String := String.mk [hexDigitChar (n / 16), hexDigitChar (n % 16)]

/-! ## Sample data for concrete instances -/

/-- A representative concrete style (the controller's defaults). -/
def sampleStyle : SubtitleStyle :=
  ⟨"Arial", 24, "#FFFFFF", "#000000", 2, "#000000", 30⟩

/-- Environment of a run where the probe and SRT write succeed but the render
process rejects (non-zero ffmpeg exit), landing in the outer catch. -/
def envRenderError : Env := ⟨true, true, "", false, "spawn ffmpeg failed", false, 0, 5, "r", "q"⟩

/-- Environment of a run where ffmpeg exits 0 and the output file exists but
is empty (size 0). -/
def envEmptyOutput : Env := ⟨true, true, "", true, "", true, 0, 5, "r", "q"⟩

/-- Environment of a run where the `ffmpeg -version` probe fails. -/
def envNoFFmpeg : Env := ⟨false, true, "", true, "", true, 10, 5, "r", "q"⟩

/-- A concrete two-segment input. -/
def demoSegments : List TranslatedSegment := [⟨0, 5 / 2, "Hello"⟩, ⟨5 / 2, 4, "World"⟩]

/-! ## Helper lemmas -/

/-- Floor evaluation from two-sided bounds. -/
theorem jsFloor_eval (q : ℚ) (k : ℤ) (h1 : (k : ℚ) ≤ q) (h2 : q < k + 1) : jsFloor q = k :=
  Int.floor_eq_iff.mpr ⟨h1, by exact_mod_cast h2⟩

/-- Truncation evaluation on non-negative arguments. -/
theorem ratTrunc_eval (q : ℚ) (k : ℤ) (h0 : (0 : ℚ) ≤ q) (h1 : (k : ℚ) ≤ q)
    (h2 : q < k + 1) : ratTrunc q = k := by
  simp only [ratTrunc, if_pos h0]
  exact Int.floor_eq_iff.mpr ⟨h1, by exact_mod_cast h2⟩

/-- The JS remainder coincides with the spec's floor-mod on non-negative
dividends and positive divisors. -/
theorem jsRem_eq_specMod (a b : ℚ) (ha : 0 ≤ a) (hb : 0 < b) : jsRem a b = specMod a b := by
  unfold jsRem specMod ratTrunc
  rw [if_pos (div_nonneg ha hb.le)]

/-- Formatter evaluation on whole-second inputs below one minute. -/
theorem formatSRTTime_nat_small (n : ℕ) (h : n < 60) :
    formatSRTTime (n : ℚ) = padStart (toString (0 : ℤ)) 2 '0' ++ ":"
      ++ padStart (toString (0 : ℤ)) 2 '0' ++ ":" ++ padStart (toString (n : ℤ)) 2 '0'
      ++ "," ++ padStart (toString (0 : ℤ)) 3 '0' := by
  have hn0 : (0 : ℚ) ≤ (n : ℚ) := Nat.cast_nonneg n
  have hn60 : (n : ℚ) < 60 := by exact_mod_cast h
  have ht1 : ratTrunc ((n : ℚ) / 3600) = 0 := by
    apply ratTrunc_eval _ 0 (by positivity) (by positivity)
    rw [div_lt_iff₀ (by norm_num)]
    push_cast
    linarith
  have ht2 : ratTrunc ((n : ℚ) / 60) = 0 := by
    apply ratTrunc_eval _ 0 (by positivity) (by positivity)
    rw [div_lt_iff₀ (by norm_num)]
    push_cast
    linarith
  have ht3 : ratTrunc ((n : ℚ) / 1) = (n : ℤ) := by
    apply ratTrunc_eval _ (n : ℤ) (by positivity) (by push_cast; norm_num)
    push_cast
    norm_num
  have hr1 : jsRem (n : ℚ) 3600 = (n : ℚ) := by rw [jsRem, ht1]; norm_num
  have hr2 : jsRem (n : ℚ) 60 = (n : ℚ) := by rw [jsRem, ht2]; norm_num
  have hr3 : jsRem (n : ℚ) 1 = 0 := by rw [jsRem, ht3]; push_cast; ring
  have h1 : jsFloor ((n : ℚ) / 3600) = 0 := by
    apply jsFloor_eval _ 0 (by positivity)
    rw [div_lt_iff₀ (by norm_num)]
    push_cast
    linarith
  have h2 : jsFloor ((n : ℚ) / 60) = 0 := by
    apply jsFloor_eval _ 0 (by positivity)
    rw [div_lt_iff₀ (by norm_num)]
    push_cast
    linarith
  have h3 : jsFloor ((n : ℚ)) = (n : ℤ) := by
    apply jsFloor_eval _ (n : ℤ) (by push_cast; norm_num)
    push_cast
    norm_num
  have h4 : jsFloor ((0 : ℚ) * 1000) = 0 := by norm_num [jsFloor]
  rw [formatSRTTime, hr1, hr2, hr3, h1, h2, h3, h4]

/-- One cue of `generateSRTFile` equals the spec's cue shape at index + 1. -/
theorem srtCue_eq_spec (i : Nat) (s : TranslatedSegment) : srtCue i s = srtCueSpec (i + 1) s := by
  unfold srtCue srtCueSpec
  simp [String.intercalate, String.intercalate.go, String.append_assoc, String.append_empty]

/-- Hex digits have values below 16. -/
theorem hexVal_lt (c : Char) (h : isHexDigit c = true) : hexVal c < 16 := by
  simp only [isHexDigit, Bool.or_eq_true, Bool.and_eq_true, decide_eq_true_eq] at h
  unfold hexVal
  rcases h with (⟨h1, h2⟩ | ⟨h1, h2⟩) | ⟨h1, h2⟩
  · have e1 : (48 : Nat) ≤ c.toNat := h1
    have e2 : c.toNat ≤ 57 := h2
    rw [if_pos (by simp only [Bool.and_eq_true, decide_eq_true_eq]; exact ⟨h1, h2⟩)]
    omega
  · have e1 : (97 : Nat) ≤ c.toNat := h1
    have e2 : c.toNat ≤ 102 := h2
    have n1 : ¬(('0' ≤ c && c ≤ '9') = true) := by
      simp only [Bool.and_eq_true, decide_eq_true_eq, not_and]
      intro _ hc
      have : c.toNat ≤ 57 := hc
      omega
    rw [if_neg n1, if_pos (by simp only [Bool.and_eq_true, decide_eq_true_eq]; exact ⟨h1, h2⟩)]
    omega
  · have e1 : (65 : Nat) ≤ c.toNat := h1
    have e2 : c.toNat ≤ 70 := h2
    have n1 : ¬(('0' ≤ c && c ≤ '9') = true) := by
      simp only [Bool.and_eq_true, decide_eq_true_eq, not_and]
      intro _ hc
      have : c.toNat ≤ 57 := hc
      omega
    have n2 : ¬(('a' ≤ c && c ≤ 'f') = true) := by
      simp only [Bool.and_eq_true, decide_eq_true_eq, not_and]
      intro hc _
      have : (97 : Nat) ≤ c.toNat := hc
      omega
    rw [if_neg n1, if_neg n2,
      if_pos (by simp only [Bool.and_eq_true, decide_eq_true_eq]; exact ⟨h1, h2⟩)]
    omega

/-- `parseInt(-, 16)` on exactly two hex digits. -/
theorem jsParseIntHex_two (c1 c2 : Char) (h1 : isHexDigit c1 = true)
    (h2 : isHexDigit c2 = true) :
    jsParseIntHex [c1, c2] = some (16 * hexVal c1 + hexVal c2) := by
  simp [jsParseIntHex, List.takeWhile, h1, h2]

set_option maxRecDepth 4000 in
/-- Padded lowercase hex of a byte equals the spec's 2-digit rendering. -/
theorem padHex2 : ∀ n : Nat, n < 256 → padStart (natToHex n) 2 '0' = toHex2 n := by decide

/-- A hex digit is never the hash character. -/
theorem hexDigit_ne_hash (c : Char) (h : isHexDigit c = true) : c ≠ '#' := by
  intro hc
  subst hc
  exact absurd h (by decide)

/-- `replace('#', '')` passes over a hash-free prefix. -/
theorem replaceFirstHash_hashFree (l s : List Char) (h : ∀ c ∈ l, c ≠ '#') :
    replaceFirstHash (l ++ s) = l ++ replaceFirstHash s := by
  induction l with
  | nil => rfl
  | cons c rest ih =>
    simp only [List.cons_append, replaceFirstHash,
      if_neg (h c (List.mem_cons_self c rest)), List.cons.injEq, true_and]
    exact ih (fun x hx => h x (List.mem_cons_of_mem c hx))

/-- The splitter's accumulator is a prefix of its result. -/
theorem shellFieldsGo_append (l : List Char) (q : Bool) (cur : List Char)
    (a₁ a₂ : List String) :
    shellFieldsGo l q cur (a₁ ++ a₂) = a₁ ++ shellFieldsGo l q cur a₂ := by
  induction l generalizing q cur a₂ with
  | nil => simp [shellFieldsGo]
  | cons c rest ih =>
    simp only [shellFieldsGo]
    split
    · exact ih (!q) cur a₂
    · split
      · rw [List.append_assoc]
        exact ih q [] _
      · exact ih q (c :: cur) a₂

/-- Accumulator extraction for the field splitter. -/
theorem shellFieldsGo_acc (l : List Char) (q : Bool) (cur : List Char) (acc : List String) :
    shellFieldsGo l q cur acc = acc ++ shellFieldsGo l q cur [] := by
  conv_lhs => rw [← List.append_nil acc]
  exact shellFieldsGo_append l q cur acc []

/-- Inside double quotes, quote-free characters are consumed literally. -/
theorem shellFieldsGo_quoted (p : List Char) (rest : List Char) (cur : List Char)
    (acc : List String) (hp : ∀ c ∈ p, c ≠ '"') :
    shellFieldsGo (p ++ rest) true cur acc = shellFieldsGo rest true (p.reverse ++ cur) acc := by
  induction p generalizing cur with
  | nil => simp
  | cons c cs ih =>
    have hc : c ≠ '"' := hp c (List.mem_cons_self c cs)
    simp only [List.cons_append, shellFieldsGo, if_neg hc, Bool.not_true, Bool.false_and,
      Bool.false_eq_true, if_false, List.append_eq]
    rw [ih (c :: cur) (fun x hx => hp x (List.mem_cons_of_mem c hx))]
    simp [List.append_assoc]

/-- Splitting the command's literal `ffmpeg -i "` prefix. -/
theorem shellFieldsGo_cmdPrefix (l : List Char) :
    shellFieldsGo ('f' :: 'f' :: 'm' :: 'p' :: 'e' :: 'g' :: ' ' :: '-' :: 'i' :: ' '
        :: '"' :: l) false [] []
      = shellFieldsGo l true [] ["ffmpeg", "-i"] := rfl

/-- A closing quote followed by a space emits the accumulated field. -/
theorem shellFieldsGo_closeQuote (cur : List Char) (l : List Char) (acc : List String)
    (hcur : cur.isEmpty = false) :
    shellFieldsGo ('"' :: ' ' :: l) true cur acc
      = shellFieldsGo l false [] (acc ++ [String.mk cur.reverse]) := by
  simp [shellFieldsGo, hcur]

/-! ## Claim theorems -/

/-- C1 (counterexample): in a run where the SRT file was written and the
external ffmpeg process then exits with an error (the outer catch branch),
the SRT file still exists when the call returns, although unlink operations
succeed whenever attempted — the catch branch never attempts one.  This
refutes the claim that the SRT file is gone on every return path. -/
theorem c1_srt_not_deleted_in_catch :
    (Event.srtWrite "temp/subtitles_5_r.srt"
        ∈ (generateVideoWithSubtitles envRenderError "in.mp4" [] sampleStyle).2) ∧
    srtLeftBehind (generateVideoWithSubtitles envRenderError "in.mp4" [] sampleStyle).2 = true := by
  constructor
  · decide
  · decide

/-- C1 (amended): the SRT temp file is left behind exactly when the probe and
the SRT write succeed but the render process rejects (the catch branch); on
the success path and the missing-output path it is always deleted. -/
theorem c1_srt_cleanup_characterization (env : Env) (inputVideoPath : String)
    (segments : List TranslatedSegment) (style : SubtitleStyle) :
    srtLeftBehind (generateVideoWithSubtitles env inputVideoPath segments style).2
      = (env.ffmpegAvailable && env.srtWriteOk && !env.ffmpegRunOk) := by
  rcases env with ⟨fa, sw, sm, fr, fm, oe, os, now, r1, r2⟩
  cases fa <;> cases sw <;> cases fr <;> cases oe <;>
    simp [generateVideoWithSubtitles, srtLeftBehind]

/-- C2 (counterexample): a run where the process exits 0 and the output file
exists with size 0 still reports success, refuting the claim that an empty
output yields failure. -/
theorem c2_empty_output_reports_success :
    envEmptyOutput.outputExists = true ∧ envEmptyOutput.outputSize = 0 ∧
    (generateVideoWithSubtitles envEmptyOutput "in.mp4" [] sampleStyle).1.success = true :=
  ⟨rfl, rfl, rfl⟩

/-- C2 (amended): the pipeline reports success iff the probe, the SRT write
and the external process succeed and the derived output path exists; the
output file's size is never part of the decision. -/
theorem c2_success_iff_output_exists (env : Env) (inputVideoPath : String)
    (segments : List TranslatedSegment) (style : SubtitleStyle) :
    (generateVideoWithSubtitles env inputVideoPath segments style).1.success
      = (env.ffmpegAvailable && env.srtWriteOk && env.ffmpegRunOk && env.outputExists) := by
  rcases env with ⟨fa, sw, sm, fr, fm, oe, os, now, r1, r2⟩
  cases fa <;> cases sw <;> cases fr <;> cases oe <;>
    simp [generateVideoWithSubtitles]

/-- C3: on every non-negative duration `formatSRTTime` computes exactly the
spec formula `srtTimeSpec` (floors and floor-mods of the four fields,
zero-padded 2/2/2/3), and the boundary examples are exact:
0 ↦ `00:00:00,000`, 65.5 ↦ `00:01:05,500`, 3661.001 ↦ `01:01:01,001`. -/
theorem c3_formatSRTTime_spec :
    (∀ q : ℚ, 0 ≤ q → formatSRTTime q = srtTimeSpec q) ∧
    formatSRTTime 0 = "00:00:00,000" ∧
    formatSRTTime (131 / 2) = "00:01:05,500" ∧
    formatSRTTime (3661001 / 1000) = "01:01:01,001" := by
  refine ⟨?_, ?_, ?_, ?_⟩
  · intro q hq
    unfold formatSRTTime srtTimeSpec jsFloor
    rw [jsRem_eq_specMod q 3600 hq (by norm_num), jsRem_eq_specMod q 60 hq (by norm_num),
      jsRem_eq_specMod q 1 hq (by norm_num)]
  · have ht1 : ratTrunc ((0 : ℚ) / 3600) = 0 :=
      ratTrunc_eval _ 0 (by norm_num) (by norm_num) (by norm_num)
    have ht2 : ratTrunc ((0 : ℚ) / 60) = 0 :=
      ratTrunc_eval _ 0 (by norm_num) (by norm_num) (by norm_num)
    have ht3 : ratTrunc ((0 : ℚ) / 1) = 0 :=
      ratTrunc_eval _ 0 (by norm_num) (by norm_num) (by norm_num)
    have hr1 : jsRem (0 : ℚ) 3600 = 0 := by rw [jsRem, ht1]; norm_num
    have hr2 : jsRem (0 : ℚ) 60 = 0 := by rw [jsRem, ht2]; norm_num
    have hr3 : jsRem (0 : ℚ) 1 = 0 := by rw [jsRem, ht3]; norm_num
    have h1 : jsFloor ((0 : ℚ) / 3600) = 0 := jsFloor_eval _ 0 (by norm_num) (by norm_num)
    have h2 : jsFloor ((0 : ℚ) / 60) = 0 := jsFloor_eval _ 0 (by norm_num) (by norm_num)
    have h3 : jsFloor ((0 : ℚ)) = 0 := jsFloor_eval _ 0 (by norm_num) (by norm_num)
    have h4 : jsFloor ((0 : ℚ) * 1000) = 0 := by norm_num [jsFloor]
    rw [formatSRTTime, hr1, hr2, hr3, h1, h2, h3, h4]
    rfl
  · have ht1 : ratTrunc ((131 / 2 : ℚ) / 3600) = 0 :=
      ratTrunc_eval _ 0 (by norm_num) (by norm_num) (by norm_num)
    have ht2 : ratTrunc ((131 / 2 : ℚ) / 60) = 1 :=
      ratTrunc_eval _ 1 (by norm_num) (by norm_num) (by norm_num)
    have ht3 : ratTrunc ((131 / 2 : ℚ) / 1) = 65 :=
      ratTrunc_eval _ 65 (by norm_num) (by norm_num) (by norm_num)
    have hr1 : jsRem (131 / 2 : ℚ) 3600 = 131 / 2 := by rw [jsRem, ht1]; norm_num
    have hr2 : jsRem (131 / 2 : ℚ) 60 = 11 / 2 := by rw [jsRem, ht2]; norm_num
    have hr3 : jsRem (131 / 2 : ℚ) 1 = 1 / 2 := by rw [jsRem, ht3]; norm_num
    have h1 : jsFloor ((131 / 2 : ℚ) / 3600) = 0 := jsFloor_eval _ 0 (by norm_num) (by norm_num)
    have h2 : jsFloor ((131 / 2 : ℚ) / 60) = 1 := jsFloor_eval _ 1 (by norm_num) (by norm_num)
    have h3 : jsFloor ((11 / 2 : ℚ)) = 5 := jsFloor_eval _ 5 (by norm_num) (by norm_num)
    have h4 : jsFloor ((1 / 2 : ℚ) * 1000) = 500 := jsFloor_eval _ 500 (by norm_num) (by norm_num)
    rw [formatSRTTime, hr1, hr2, hr3, h1, h2, h3, h4]
    rfl
  · have ht1 : ratTrunc ((3661001 / 1000 : ℚ) / 3600) = 1 :=
      ratTrunc_eval _ 1 (by norm_num) (by norm_num) (by norm_num)
    have ht2 : ratTrunc ((3661001 / 1000 : ℚ) / 60) = 61 :=
      ratTrunc_eval _ 61 (by norm_num) (by norm_num) (by norm_num)
    have ht3 : ratTrunc ((3661001 / 1000 : ℚ) / 1) = 3661 :=
      ratTrunc_eval _ 3661 (by norm_num) (by norm_num) (by norm_num)
    have hr1 : jsRem (3661001 / 1000 : ℚ) 3600 = 61001 / 1000 := by rw [jsRem, ht1]; norm_num
    have hr2 : jsRem (3661001 / 1000 : ℚ) 60 = 1001 / 1000 := by rw [jsRem, ht2]; norm_num
    have hr3 : jsRem (3661001 / 1000 : ℚ) 1 = 1 / 1000 := by rw [jsRem, ht3]; norm_num
    have h1 : jsFloor ((3661001 / 1000 : ℚ) / 3600) = 1 :=
      jsFloor_eval _ 1 (by norm_num) (by norm_num)
    have h2 : jsFloor ((61001 / 1000 : ℚ) / 60) = 1 := jsFloor_eval _ 1 (by norm_num) (by norm_num)
    have h3 : jsFloor ((1001 / 1000 : ℚ)) = 1 := jsFloor_eval _ 1 (by norm_num) (by norm_num)
    have h4 : jsFloor ((1 / 1000 : ℚ) * 1000) = 1 := by norm_num [jsFloor]
    rw [formatSRTTime, hr1, hr2, hr3, h1, h2, h3, h4]
    rfl

/-- C3 (witness): the universal part of C3 applied at the concrete duration 7. -/
theorem c3_formatSRTTime_spec_witness : formatSRTTime 7 = srtTimeSpec 7 :=
  c3_formatSRTTime_spec.1 7 (by norm_num)

/-- C4: for any input whose first six hex digits after an optional `#` are
RRGGBB, `hexToBGR` outputs `&H` ++ BB ++ GG ++ RR ++ `&` with each byte in
two lowercase hex digits — a pure permutation of the three channels,
independent of any trailing alpha digits. -/
theorem c4_hexToBGR_permutation (d1 d2 d3 d4 d5 d6 : Char)
    (h1 : isHexDigit d1 = true) (h2 : isHexDigit d2 = true)
    (h3 : isHexDigit d3 = true) (h4 : isHexDigit d4 = true)
    (h5 : isHexDigit d5 = true) (h6 : isHexDigit d6 = true)
    (suffix : String) (withHash : Bool) :
    hexToBGR ((if withHash then "#" else "") ++ String.mk [d1, d2, d3, d4, d5, d6] ++ suffix)
      = "&H" ++ toHex2 (16 * hexVal d5 + hexVal d6) ++ toHex2 (16 * hexVal d3 + hexVal d4)
        ++ toHex2 (16 * hexVal d1 + hexVal d2) ++ "&" := by
  have hdata : ((if withHash then "#" else "") ++ String.mk [d1, d2, d3, d4, d5, d6] ++ suffix).data
      = (if withHash then ['#'] else []) ++ ([d1, d2, d3, d4, d5, d6] ++ suffix.data) := by
    cases withHash <;> simp [String.data_append]
  obtain ⟨t, ht⟩ : ∃ t, replaceFirstHash ((if withHash then ['#'] else [])
        ++ ([d1, d2, d3, d4, d5, d6] ++ suffix.data))
      = [d1, d2, d3, d4, d5, d6] ++ t := by
    cases withHash
    · refine ⟨replaceFirstHash suffix.data, ?_⟩
      simp only [Bool.false_eq_true, if_false, List.nil_append]
      exact replaceFirstHash_hashFree _ _ (by
        intro c hc
        simp only [List.mem_cons, List.not_mem_nil, or_false] at hc
        rcases hc with rfl | rfl | rfl | rfl | rfl | rfl
        · exact hexDigit_ne_hash _ h1
        · exact hexDigit_ne_hash _ h2
        · exact hexDigit_ne_hash _ h3
        · exact hexDigit_ne_hash _ h4
        · exact hexDigit_ne_hash _ h5
        · exact hexDigit_ne_hash _ h6)
    · exact ⟨suffix.data, by simp [replaceFirstHash]⟩
  unfold hexToBGR
  rw [hdata, ht]
  have htake : ([d1, d2, d3, d4, d5, d6] ++ t).take 2 = [d1, d2] := by
    simp [List.take]
  have hdrop2 : (([d1, d2, d3, d4, d5, d6] ++ t).drop 2).take 2 = [d3, d4] := by
    simp [List.drop, List.take]
  have hdrop4 : (([d1, d2, d3, d4, d5, d6] ++ t).drop 4).take 2 = [d5, d6] := by
    simp [List.drop, List.take]
  dsimp only
  rw [htake, hdrop2, hdrop4, jsParseIntHex_two d1 d2 h1 h2, jsParseIntHex_two d3 d4 h3 h4,
    jsParseIntHex_two d5 d6 h5 h6]
  dsimp only [hexByteRepr]
  rw [padHex2 _ (by have := hexVal_lt d5 h5; have := hexVal_lt d6 h6; omega),
    padHex2 _ (by have := hexVal_lt d3 h3; have := hexVal_lt d4 h4; omega),
    padHex2 _ (by have := hexVal_lt d1 h1; have := hexVal_lt d2 h2; omega)]

/-- C4 (witness): the permutation theorem applied at `#112233`, giving the
spec's example `&H332211&`. -/
theorem c4_hexToBGR_permutation_witness : hexToBGR "#112233" = "&H332211&" := by
  have h := c4_hexToBGR_permutation '1' '1' '2' '2' '3' '3' (by decide) (by decide) (by decide)
    (by decide) (by decide) (by decide) "" true
  have e1 : (if (true : Bool) then "#" else "") ++ String.mk ['1', '1', '2', '2', '3', '3'] ++ ""
      = "#112233" := by decide
  have e2 : "&H" ++ toHex2 (16 * hexVal '3' + hexVal '3') ++ toHex2 (16 * hexVal '2' + hexVal '2')
      ++ toHex2 (16 * hexVal '1' + hexVal '1') ++ "&" = "&H332211&" := by decide
  rw [e1, e2] at h
  exact h

/-- C5: for every non-empty segment list, the builder's content is the
newline-join of exactly N cue strings, and the i-th cue string is the spec
cue for segment i with 1-based index i+1 (so indices run 1..N in order). -/
theorem c5_srt_builder_cues (segments : List TranslatedSegment) (_hne : segments ≠ []) :
    srtContent segments = String.intercalate "\n" (srtCueList segments) ∧
    (srtCueList segments).length = segments.length ∧
    ∀ i s, segments.get? i = some s →
      (srtCueList segments).get? i = some (srtCueSpec (i + 1) s) := by
  refine ⟨rfl, by simp [srtCueList], ?_⟩
  intro i s hs
  rw [List.get?_eq_getElem?] at hs
  simp [srtCueList, List.getElem?_map, List.getElem?_enum, hs, srtCue_eq_spec]

/-- C5 (witness): the cue-count part of C5 at a concrete two-segment input. -/
theorem c5_srt_builder_cues_witness :
    (srtCueList demoSegments).length = demoSegments.length :=
  (c5_srt_builder_cues demoSegments (List.cons_ne_nil _ _)).2.1

/-- C6 (counterexample): a segment with `end` = 2 ≤ 5 = `start` is accepted
by the builder without any validation error, and the produced file contains
the inverted cue `00:00:05,000 --> 00:00:02,000`, refuting the claim that
such input fails with a validation error. -/
theorem c6_inverted_segment_silently_accepted :
    ((⟨5, 2, "oops"⟩ : TranslatedSegment).«end» ≤ (⟨5, 2, "oops"⟩ : TranslatedSegment).start) ∧
    srtContent [⟨5, 2, "oops"⟩] = "1\n00:00:05,000 --> 00:00:02,000\noops\n" := by
  constructor
  · norm_num
  · have h5 : formatSRTTime (5 : ℚ) = "00:00:05,000" := by
      have h := formatSRTTime_nat_small 5 (by norm_num)
      push_cast at h
      rw [h]
      rfl
    have h2 : formatSRTTime (2 : ℚ) = "00:00:02,000" := by
      have h := formatSRTTime_nat_small 2 (by norm_num)
      push_cast at h
      rw [h]
      rfl
    have hc : srtContent [(⟨5, 2, "oops"⟩ : TranslatedSegment)] = srtCueSpec 1 ⟨5, 2, "oops"⟩ := by
      simp [srtContent, srtCueList, srtCue_eq_spec, String.intercalate, String.intercalate.go]
    rw [hc, srtCueSpec]
    show (toString 1 ++ "\n" ++ formatSRTTime 5 ++ " --> " ++ formatSRTTime 2
      ++ "\n" ++ "oops" ++ "\n") = _
    rw [h5, h2]
    rfl

/-- C6 (amended): the builder performs no timing validation — for a segment
with `end ≤ start` it succeeds and emits the cue with the inverted time
range instead of failing. -/
theorem c6_no_validation (s : TranslatedSegment) (_h : s.«end» ≤ s.start) :
    srtContent [s] = srtCueSpec 1 s := by
  simp [srtContent, srtCueList, srtCue_eq_spec, String.intercalate, String.intercalate.go]

/-- C6 (witness): the amended C6 applied to the concrete inverted segment. -/
theorem c6_no_validation_witness :
    srtContent [(⟨5, 2, "oops"⟩ : TranslatedSegment)] = srtCueSpec 1 ⟨5, 2, "oops"⟩ :=
  c6_no_validation ⟨5, 2, "oops"⟩ (by norm_num)

set_option maxRecDepth 8000 in
/-- C7 (counterexample): for the input path `evil" b.mp4`, which contains a
double quote, the constructed command's third field under double-quote-aware
splitting is `evil`, not the path — the embedded quote terminates the quoted
region and the command's token structure is broken, with no validation
rejection; this refutes the claim that quoting or fail-fast validation
protects every path. -/
theorem c7_quote_breaks_command :
    (shellFields (buildFFmpegCommand "evil\" b.mp4" "temp/s.srt" "out.mp4" sampleStyle)).get? 2
      = some "evil" ∧ ("evil" : String) ≠ "evil\" b.mp4" := by
  constructor
  · decide
  · decide

set_option maxRecDepth 4000 in
/-- C7 (amended): the command builder wraps each path verbatim in double
quotes with no escaping and no validation; a quote-free non-empty input path
is preserved as the single third field of the command, but (per the
counterexample) a path containing a double quote is not. -/
theorem c7_quote_free_path_single_token (inputPath srtPath outputPath : String)
    (style : SubtitleStyle) (hne : inputPath ≠ "")
    (hq : ∀ c ∈ inputPath.data, c ≠ '"') :
    (shellFields (buildFFmpegCommand inputPath srtPath outputPath style)).get? 2
      = some inputPath := by
  have hd : inputPath.data ≠ [] := fun h => hne (String.ext h)
  have hrevEmpty : inputPath.data.reverse.isEmpty = false := by
    cases h : inputPath.data.reverse.isEmpty
    · rfl
    · exfalso
      rw [List.isEmpty_iff] at h
      exact hd (List.reverse_eq_nil_iff.mp h)
  have hmk : String.mk inputPath.data = inputPath := rfl
  unfold shellFields buildFFmpegCommand
  simp only [String.intercalate, String.intercalate.go, String.data_append,
    List.cons_append, List.nil_append, List.append_assoc]
  rw [shellFieldsGo_cmdPrefix, shellFieldsGo_quoted inputPath.data _ [] _ hq,
    List.append_nil, shellFieldsGo_closeQuote _ _ _ hrevEmpty, List.reverse_reverse, hmk,
    shellFieldsGo_acc]
  simp

/-- C7 (witness): the amended C7 at a concrete quote-free path containing a
space, which survives as a single field. -/
theorem c7_quote_free_path_single_token_witness :
    (shellFields (buildFFmpegCommand "in video.mp4" "temp/s.srt" "out.mp4" sampleStyle)).get? 2
      = some "in video.mp4" :=
  c7_quote_free_path_single_token "in video.mp4" "temp/s.srt" "out.mp4" sampleStyle
    (by decide) (by decide)

/-- C8: the `ffmpeg -version` probe is the first filesystem-visible event of
every run, and when it fails the call returns the tool-not-found failure
with the whole trace being just the failed probe — no SRT write and no
render command ever happen. -/
theorem c8_probe_precedes_everything (env : Env) (inputVideoPath : String)
    (segments : List TranslatedSegment) (style : SubtitleStyle) :
    ((generateVideoWithSubtitles env inputVideoPath segments style).2.head?
        = some (Event.probe env.ffmpegAvailable)) ∧
    (env.ffmpegAvailable = false →
      (generateVideoWithSubtitles env inputVideoPath segments style).1
        = ⟨false, "FFmpeg não encontrado. Instale o FFmpeg para continuar.", none⟩ ∧
      (generateVideoWithSubtitles env inputVideoPath segments style).2 = [Event.probe false]) := by
  rcases env with ⟨fa, sw, sm, fr, fm, oe, os, now, r1, r2⟩
  cases fa <;> cases sw <;> cases fr <;> cases oe <;>
    simp [generateVideoWithSubtitles]

/-- C8 (witness): C8 applied to a concrete probe-failure environment. -/
theorem c8_probe_precedes_everything_witness :
    (generateVideoWithSubtitles envNoFFmpeg "in.mp4" [] sampleStyle).1
      = ⟨false, "FFmpeg não encontrado. Instale o FFmpeg para continuar.", none⟩ :=
  ((c8_probe_precedes_everything envNoFFmpeg "in.mp4" [] sampleStyle).2 rfl).1

/-- C9: the pipeline always returns a structured `VideoResult` (the embedding
is a total function, mirroring the outer catch-all), and `outputPath` is
populated exactly when `success` is true. -/
theorem c9_structured_result (env : Env) (inputVideoPath : String)
    (segments : List TranslatedSegment) (style : SubtitleStyle) :
    (generateVideoWithSubtitles env inputVideoPath segments style).1.outputPath.isSome
      = (generateVideoWithSubtitles env inputVideoPath segments style).1.success := by
  rcases env with ⟨fa, sw, sm, fr, fm, oe, os, now, r1, r2⟩
  cases fa <;> cases sw <;> cases fr <;> cases oe <;>
    simp [generateVideoWithSubtitles]

/-- C10: the SRT file content depends only on the segment list — any two
invocations with equal segments but different timestamps and random tokens
produce byte-identical content (`srtContent segments`; only the path can
differ).  The builder takes no style argument at all. -/
theorem c10_content_deterministic (segments : List TranslatedSegment)
    (now₁ : Nat) (rand₁ : String) (now₂ : Nat) (rand₂ : String) :
    (generateSRTFile segments now₁ rand₁).2 = (generateSRTFile segments now₂ rand₂).2 ∧
    (generateSRTFile segments now₁ rand₁).2 = srtContent segments :=
  ⟨rfl, rfl⟩

end WhisperApi
